import Mathlib

/-!
Shallow embedding of the rist-rs safe wrapper over the native RIST
transport library.

The wrapper's own logic (state checks, error mapping, buffer management,
resource release) is translated directly from the Rust source.  The native
library itself is external: every native call's outcome (return code,
resulting handle, payload) is an explicit input to the embedded function,
and each embedded operation additionally returns the ordered list of
native calls it performed, so that claims about "no native call is made"
or "the handle is released on this path" are statements about that trace.

Mutex locks (`stats` cell, `read_buf`) are modelled as always succeeding:
lock poisoning requires a panic while the lock is held and no code in this
crate can panic there.
-/

namespace Rist

/-- Equality of Except values is decidable when it is on both sides. -/
instance {ε α : Type} [DecidableEq ε] [DecidableEq α] : DecidableEq (Except ε α) :=
  fun a b =>
    match a, b with
    | .ok x, .ok y =>
      if h : x = y then isTrue (by rw [h])
      else isFalse (by intro hc; cases hc; exact h rfl)
    | .error x, .error y =>
      if h : x = y then isTrue (by rw [h])
      else isFalse (by intro hc; cases hc; exact h rfl)
    | .ok _, .error _ => isFalse (by intro hc; cases hc)
    | .error _, .ok _ => isFalse (by intro hc; cases hc)

/-- Error taxonomy, translated from src/rist/src/error.rs.  The payload of
the native NulError and of stats strings is dropped or kept as a plain
String.  The EventFd variant is the one constructed in
src/rist/src/tokio/receiver.rs. -/
inductive Error where
  | ContextCreation
  | PeerCreation (url : String)
  | UrlParse (url : String)
  | Start
  | Send
  | Read
  | NulError
  | AlreadyStarted
  | NotStarted
  | TimeoutOverflow
  | LoggingSetup
  | JoinError (msg : String)
  | EventFd (msg : String)
  deriving DecidableEq, Repr

/-- Rust std Duration: seconds plus sub-second nanoseconds. -/
structure Duration where
  secs : Nat
  nanos : Nat
  deriving DecidableEq, Repr

/-- Duration::as_millis (value of the u128 result; it cannot overflow). -/
def Duration.as_millis (d : Duration) : Nat :=
  d.secs * 1000 + d.nanos / 1000000

/-- TryInto i32 for the non-negative millisecond count: succeeds exactly
when the value fits in a 32-bit signed integer. -/
def i32_try_from (n : Nat) : Option Int :=
  if n ≤ 2147483647 then some (Int.ofNat n) else none

/-- A received data block as surfaced to the caller: payload bytes,
ts_ntp timestamp and flow id (receiver.rs DataBlock accessors). -/
structure DataBlock where
  payload : List UInt8
  ts_ntp : Nat
  flow_id : Nat
  deriving DecidableEq, Repr

/-- The transient rist_data_block descriptor built by the send paths.
Null pointers of the C struct are modelled by Bool flags. -/
structure RistDataBlock where
  payload : List UInt8
  payload_len : Nat
  ts_ntp : Nat
  flow_id : Nat
  flags : Nat
  seq : Nat
  virt_src_port : Nat
  virt_dst_port : Nat
  peerIsNull : Bool
  refIsNull : Bool
  deriving DecidableEq, Repr

/-- One call into the native library, recorded in order of execution. -/
inductive NativeCall where
  | receiverCreate
  | senderCreate
  | parseAddress (url : String)
  | peerCreate
  | peerConfigFree
  | start
  | dataRead (timeoutMs : Int)
  | senderWrite (blk : RistDataBlock)
  | destroyCtx
  | pipeCreate
  | notifyFdSet
  | asyncFdNew
  | statsCallbackSet
  | statsFree
  | blockFree
  deriving DecidableEq, Repr

/-- Native outcome of one rist_receiver_data_read2 call: the returned
code and the resulting block handle (none models a null pointer). -/
structure ReadEnv where
  ret : Int
  block : Option DataBlock
  deriving DecidableEq, Repr

/-- Native outcomes consumed by one add_peer call. parseOk is whether the
peer_config handle produced by rist_parse_address2 is non-null. -/
structure AddPeerEnv where
  parseRet : Int
  parseOk : Bool
  peerCreateRet : Int
  deriving DecidableEq, Repr

/-- CString::new(url) fails exactly when the string contains a null byte
(in UTF-8 a zero byte occurs exactly at the character U+0000). -/
def containsNul (s : String) : Bool :=
  s.data.any (fun c => c == Char.ofNat 0)

/-- Blocking receiver session state (receiver.rs Receiver struct:
context handle plus started flag; only the flag carries logic). -/
structure Receiver where
  started : Bool
  deriving DecidableEq, Repr

/-- Receiver::new — a fresh session is not started. -/
def Receiver.new (createRet : Int) (ctxOk : Bool) : Except Error Receiver :=
  if createRet ≠ 0 ∨ ctxOk = false then .error .ContextCreation
  else .ok { started := false }

/-- Receiver::add_peer (receiver.rs lines 69-95). -/
def Receiver.add_peer (_r : Receiver) (url : String) (env : AddPeerEnv) :
    Except Error Unit × List NativeCall :=
  if containsNul url then (.error .NulError, [])
  else if env.parseRet ≠ 0 ∨ env.parseOk = false then
    (.error (.UrlParse url), [.parseAddress url])
  else if env.peerCreateRet ≠ 0 then
    (.error (.PeerCreation url), [.parseAddress url, .peerCreate, .peerConfigFree])
  else
    (.ok (), [.parseAddress url, .peerCreate, .peerConfigFree])

/-- Receiver::start (receiver.rs lines 98-111). -/
def Receiver.start (r : Receiver) (startRet : Int) :
    Except Error Receiver × List NativeCall :=
  if r.started then (.error .AlreadyStarted, [])
  else if startRet ≠ 0 then (.error .Start, [.start])
  else (.ok { started := true }, [.start])

/-- Receiver::read (receiver.rs lines 116-139). -/
def Receiver.read (r : Receiver) (timeout : Duration) (env : ReadEnv) :
    Except Error (Option DataBlock) × List NativeCall :=
  if !r.started then (.error .NotStarted, [])
  else
    match i32_try_from timeout.as_millis with
    | none => (.error .TimeoutOverflow, [])
    | some timeout_ms =>
      if env.ret < 0 then (.error .Read, [.dataRead timeout_ms])
      else if env.ret = 0 ∨ env.block = none then (.ok none, [.dataRead timeout_ms])
      else (.ok env.block, [.dataRead timeout_ms])

/-- Blocking sender session state (sender.rs Sender struct). -/
structure Sender where
  started : Bool
  deriving DecidableEq, Repr

/-- Sender::new — a fresh session is not started. -/
def Sender.new (createRet : Int) (ctxOk : Bool) : Except Error Sender :=
  if createRet ≠ 0 ∨ ctxOk = false then .error .ContextCreation
  else .ok { started := false }

/-- Sender::add_peer (sender.rs lines 26-52), same shape as the
receiver's. -/
def Sender.add_peer (_s : Sender) (url : String) (env : AddPeerEnv) :
    Except Error Unit × List NativeCall :=
  if containsNul url then (.error .NulError, [])
  else if env.parseRet ≠ 0 ∨ env.parseOk = false then
    (.error (.UrlParse url), [.parseAddress url])
  else if env.peerCreateRet ≠ 0 then
    (.error (.PeerCreation url), [.parseAddress url, .peerCreate, .peerConfigFree])
  else
    (.ok (), [.parseAddress url, .peerCreate, .peerConfigFree])

/-- Sender::start (sender.rs lines 55-68). -/
def Sender.start (s : Sender) (startRet : Int) :
    Except Error Sender × List NativeCall :=
  if s.started then (.error .AlreadyStarted, [])
  else if startRet ≠ 0 then (.error .Start, [.start])
  else (.ok { started := true }, [.start])

/-- Sender::send (sender.rs lines 73-98).  The native write's return
code is a function of the descriptor it is handed. -/
def Sender.send (s : Sender) (data : List UInt8) (write : RistDataBlock → Int) :
    Except Error Nat × List NativeCall :=
  if !s.started then (.error .NotStarted, [])
  else
    let block : RistDataBlock :=
      { payload := data, payload_len := data.length, ts_ntp := 0, flow_id := 0,
        flags := 0, seq := 0, virt_src_port := 0, virt_dst_port := 0,
        peerIsNull := true, refIsNull := true }
    let ret := write block
    if ret < 0 then (.error .Send, [.senderWrite block])
    else (.ok ret.toNat, [.senderWrite block])

/-- Sender::send_with_flow_id (sender.rs lines 101-126). -/
def Sender.send_with_flow_id (s : Sender) (data : List UInt8) (flow_id : Nat)
    (write : RistDataBlock → Int) : Except Error Nat × List NativeCall :=
  if !s.started then (.error .NotStarted, [])
  else
    let block : RistDataBlock :=
      { payload := data, payload_len := data.length, ts_ntp := 0, flow_id := flow_id,
        flags := 0, seq := 0, virt_src_port := 0, virt_dst_port := 0,
        peerIsNull := true, refIsNull := true }
    let ret := write block
    if ret < 0 then (.error .Send, [.senderWrite block])
    else (.ok ret.toNat, [.senderWrite block])

/-- Recovery mode (options.rs).  The raw codes stand for the native
enum constants RIST_RECOVERY_MODE_DISABLED / RIST_RECOVERY_MODE_TIME. -/
inductive RecoveryMode where
  | Disabled
  | Time
  deriving DecidableEq, Repr

/-- RecoveryMode::to_raw. -/
def RecoveryMode.to_raw : RecoveryMode → Nat
  | .Disabled => 0
  | .Time => 1

/-- The native rist_peer_config record: the seven fields targeted by the
options objects, plus a sample of fields no option ever touches. -/
structure RistPeerConfig where
  recovery_mode : Nat
  recovery_maxbitrate : Nat
  recovery_length_min : Nat
  recovery_length_max : Nat
  recovery_reorder_buffer : Nat
  recovery_rtt_min : Nat
  recovery_rtt_max : Nat
  address : String
  virt_dst_port : Nat
  weight : Nat
  recovery_maxbitrate_return : Nat
  deriving DecidableEq, Repr

/-- ReceiverOptions (options.rs lines 27-44). -/
structure ReceiverOptions where
  recovery_mode : Option RecoveryMode
  recovery_maxbitrate : Option Nat
  recovery_length_min : Option Duration
  recovery_length_max : Option Duration
  recovery_reorder_buffer : Option Nat
  recovery_rtt_min : Option Duration
  recovery_rtt_max : Option Duration
  fifo_size : Option Nat
  deriving DecidableEq, Repr

/-- ReceiverOptions::apply_to_peer_config (options.rs lines 83-105).
The Rust cast of a u128 millisecond count to u32 truncates mod 2^32. -/
def ReceiverOptions.apply_to_peer_config (o : ReceiverOptions)
    (config : RistPeerConfig) : RistPeerConfig :=
  let config := match o.recovery_mode with
    | some mode => { config with recovery_mode := mode.to_raw }
    | none => config
  let config := match o.recovery_maxbitrate with
    | some bitrate => { config with recovery_maxbitrate := bitrate }
    | none => config
  let config := match o.recovery_length_min with
    | some duration =>
        { config with recovery_length_min := duration.as_millis % 4294967296 }
    | none => config
  let config := match o.recovery_length_max with
    | some duration =>
        { config with recovery_length_max := duration.as_millis % 4294967296 }
    | none => config
  let config := match o.recovery_reorder_buffer with
    | some buffer => { config with recovery_reorder_buffer := buffer }
    | none => config
  let config := match o.recovery_rtt_min with
    | some duration =>
        { config with recovery_rtt_min := duration.as_millis % 4294967296 }
    | none => config
  let config := match o.recovery_rtt_max with
    | some duration =>
        { config with recovery_rtt_max := duration.as_millis % 4294967296 }
    | none => config
  config

/-- SenderOptions (options.rs lines 110-119). -/
structure SenderOptions where
  recovery_mode : Option RecoveryMode
  recovery_maxbitrate : Option Nat
  recovery_length_min : Option Duration
  recovery_length_max : Option Duration
  deriving DecidableEq, Repr

/-- SenderOptions::apply_to_peer_config (options.rs lines 152-165). -/
def SenderOptions.apply_to_peer_config (o : SenderOptions)
    (config : RistPeerConfig) : RistPeerConfig :=
  let config := match o.recovery_mode with
    | some mode => { config with recovery_mode := mode.to_raw }
    | none => config
  let config := match o.recovery_maxbitrate with
    | some bitrate => { config with recovery_maxbitrate := bitrate }
    | none => config
  let config := match o.recovery_length_min with
    | some duration =>
        { config with recovery_length_min := duration.as_millis % 4294967296 }
    | none => config
  let config := match o.recovery_length_max with
    | some duration =>
        { config with recovery_length_max := duration.as_millis % 4294967296 }
    | none => config
  config

/-- Native stats discriminant value for sender-peer shaped payloads. -/
def RIST_STATS_SENDER_PEER : Nat := 0

/-- Native stats discriminant value for receiver-flow shaped payloads. -/
def RIST_STATS_RECEIVER_FLOW : Nat := 1

/-- Raw receiver-flow stats payload (the f64 quality value is carried
opaquely as its bit pattern: the wrapper only copies it). -/
structure RistStatsReceiverFlow where
  peer_count : Nat
  flow_id : Nat
  bandwidth : Nat
  retry_bandwidth : Nat
  sent : Nat
  received : Nat
  missing : Nat
  reordered : Nat
  recovered : Nat
  lost : Nat
  quality : Nat
  rtt : Nat
  deriving DecidableEq, Repr

/-- Raw sender-peer stats payload. -/
structure RistStatsSenderPeer where
  peer_id : Nat
  bandwidth : Nat
  retry_bandwidth : Nat
  sent : Nat
  received : Nat
  retransmitted : Nat
  quality : Nat
  rtt : Nat
  deriving DecidableEq, Repr

/-- The native rist_stats container: discriminant plus the union, the
union being modelled as both of its readable views. -/
structure RistStats where
  stats_type : Nat
  receiver_flow : RistStatsReceiverFlow
  sender_peer : RistStatsSenderPeer
  deriving DecidableEq, Repr

/-- Typed receiver stats snapshot (stats.rs ReceiverStats). -/
structure ReceiverStats where
  peer_count : Nat
  flow_id : Nat
  bandwidth : Nat
  retry_bandwidth : Nat
  sent : Nat
  received : Nat
  missing : Nat
  reordered : Nat
  recovered : Nat
  lost : Nat
  quality : Nat
  rtt : Nat
  deriving DecidableEq, Repr

/-- From impl for ReceiverStats (stats.rs). -/
def ReceiverStats.fromRaw (raw : RistStatsReceiverFlow) : ReceiverStats :=
  { peer_count := raw.peer_count, flow_id := raw.flow_id,
    bandwidth := raw.bandwidth, retry_bandwidth := raw.retry_bandwidth,
    sent := raw.sent, received := raw.received, missing := raw.missing,
    reordered := raw.reordered, recovered := raw.recovered, lost := raw.lost,
    quality := raw.quality, rtt := raw.rtt }

/-- Typed sender stats snapshot (stats.rs SenderStats). -/
structure SenderStats where
  peer_id : Nat
  bandwidth : Nat
  retry_bandwidth : Nat
  sent : Nat
  received : Nat
  retransmitted : Nat
  quality : Nat
  rtt : Nat
  deriving DecidableEq, Repr

/-- From impl for SenderStats (stats.rs). -/
def SenderStats.fromRaw (raw : RistStatsSenderPeer) : SenderStats :=
  { peer_id := raw.peer_id, bandwidth := raw.bandwidth,
    retry_bandwidth := raw.retry_bandwidth, sent := raw.sent,
    received := raw.received, retransmitted := raw.retransmitted,
    quality := raw.quality, rtt := raw.rtt }

/-- Receiver stats callback (tokio/receiver.rs lines 111-134).  arg is
the registered cell pointer (none models null); container is the native
stats pointer (none models null).  Returns the C return value, the new
cell contents seen through arg, and the native-call trace. -/
def receiverStatsCallback (arg : Option (Option ReceiverStats))
    (container : Option RistStats) :
    Int × Option (Option ReceiverStats) × List NativeCall :=
  match arg, container with
  | none, _ => (0, arg, [])
  | some _, none => (0, arg, [])
  | some cell, some stats =>
    let cell :=
      if stats.stats_type = RIST_STATS_RECEIVER_FLOW then
        some (ReceiverStats.fromRaw stats.receiver_flow)
      else cell
    (0, some cell, [.statsFree])

/-- Sender stats callback (tokio/sender.rs lines 32-55). -/
def senderStatsCallback (arg : Option (Option SenderStats))
    (container : Option RistStats) :
    Int × Option (Option SenderStats) × List NativeCall :=
  match arg, container with
  | none, _ => (0, arg, [])
  | some _, none => (0, arg, [])
  | some cell, some stats =>
    let cell :=
      if stats.stats_type = RIST_STATS_SENDER_PEER then
        some (SenderStats.fromRaw stats.sender_peer)
      else cell
    (0, some cell, [.statsFree])

/-- Kind of an io::Error observed while draining the notification pipe. -/
inductive IoErrorKind where
  | WouldBlock
  | Other (msg : String)
  deriving DecidableEq, Repr

/-- Inputs consumed by one AsyncReceiver::recv call: outcome of awaiting
pipe readability, outcome of draining the pipe, and the native read. -/
structure RecvEnv where
  readableErr : Option String
  consumeErr : Option IoErrorKind
  readEnv : ReadEnv
  deriving DecidableEq, Repr

/-- AsyncReceiver::try_recv (tokio/receiver.rs lines 270-285): a single
non-blocking native poll with timeout 0. -/
def AsyncReceiver.try_recv (env : ReadEnv) :
    Except Error (Option DataBlock) × List NativeCall :=
  if env.ret < 0 then (.error .Read, [.dataRead 0])
  else if env.ret = 0 ∨ env.block = none then (.ok none, [.dataRead 0])
  else (.ok env.block, [.dataRead 0])

/-- AsyncReceiver::recv (tokio/receiver.rs lines 239-257): wait for the
notification pipe, drain it (WouldBlock is benign), then try_recv. -/
def AsyncReceiver.recv (env : RecvEnv) :
    Except Error (Option DataBlock) × List NativeCall :=
  match env.readableErr with
  | some e => (.error (.EventFd e), [])
  | none =>
    match env.consumeErr with
    | some (.Other e) => (.error (.EventFd e), [])
    | _ => AsyncReceiver.try_recv env.readEnv

/-- AsyncReceiver::recv_timeout (tokio/receiver.rs lines 260-266): the
plain recv raced against a tokio timer; elapsed says the deadline fired
before recv completed.  No millisecond conversion is performed. -/
def AsyncReceiver.recv_timeout (_timeout : Duration) (elapsed : Bool)
    (env : RecvEnv) : Except Error (Option DataBlock) × List NativeCall :=
  if elapsed then (.ok none, [])
  else AsyncReceiver.recv env

/-- Outcome of one poll_read call on the stream adapter. -/
inductive PollOutcome where
  | pendingR
  | readyErr
  | readyOk
  deriving DecidableEq, Repr

/-- Full effect of one poll_read call: the poll outcome, the bytes put
into the caller's buffer, the new leftover buffer, and the trace. -/
structure PollReadResult where
  outcome : PollOutcome
  delivered : List UInt8
  newBuf : List UInt8
  trace : List NativeCall
  deriving DecidableEq, Repr

/-- AsyncRead::poll_read for AsyncReceiver (tokio/receiver.rs lines
304-349).  readBuf is the internal leftover buffer, remaining the free
space of the caller's ReadBuf, env the native poll outcome (consulted
only when the leftover buffer is empty). -/
def AsyncReceiver.poll_read (readBuf : List UInt8) (remaining : Nat)
    (env : ReadEnv) : PollReadResult :=
  if readBuf.isEmpty = false then
    let to_read := min remaining readBuf.length
    { outcome := .readyOk, delivered := readBuf.take to_read,
      newBuf := readBuf.drop to_read, trace := [] }
  else if env.ret < 0 then
    { outcome := .readyErr, delivered := [], newBuf := readBuf,
      trace := [.dataRead 0] }
  else
    match env.block with
    | none =>
      { outcome := .pendingR, delivered := [], newBuf := readBuf,
        trace := [.dataRead 0] }
    | some b =>
      if env.ret = 0 then
        { outcome := .pendingR, delivered := [], newBuf := readBuf,
          trace := [.dataRead 0] }
      else
        let payload := b.payload
        let to_read := min remaining payload.length
        let newBuf :=
          if to_read < payload.length then readBuf ++ payload.drop to_read
          else readBuf
        { outcome := .readyOk, delivered := payload.take to_read,
          newBuf := newBuf, trace := [.dataRead 0, .blockFree] }

/-- Repeated poll_read calls under a native engine that has no further
data (ret 0), collecting the delivered bytes; models the successive
reads that drain a leftover buffer. -/
def AsyncReceiver.drainReads (readBuf : List UInt8) (reqs : List Nat) :
    List UInt8 × List UInt8 :=
  match reqs with
  | [] => ([], readBuf)
  | r :: rs =>
    let step := AsyncReceiver.poll_read readBuf r { ret := 0, block := none }
    let rest := AsyncReceiver.drainReads step.newBuf rs
    (step.delivered ++ rest.1, rest.2)

/-- AsyncReceiver::add_peer_with_options (tokio/receiver.rs lines
197-224): like Receiver::add_peer but applies the options to the parsed
config before registering the peer. -/
def AsyncReceiver.add_peer_with_options (url : String)
    (_options : ReceiverOptions) (env : AddPeerEnv) :
    Except Error Unit × List NativeCall :=
  if containsNul url then (.error .NulError, [])
  else if env.parseRet ≠ 0 ∨ env.parseOk = false then
    (.error (.UrlParse url), [.parseAddress url])
  else if env.peerCreateRet ≠ 0 then
    (.error (.PeerCreation url), [.parseAddress url, .peerCreate, .peerConfigFree])
  else
    (.ok (), [.parseAddress url, .peerCreate, .peerConfigFree])

/-- Native outcomes consumed by AsyncReceiver::bind_with_options. -/
structure BindEnv where
  createRet : Int
  createOk : Bool
  pipeErr : Option String
  notifyFdSetRet : Int
  asyncFdErr : Option String
  peer : AddPeerEnv
  startRet : Int
  deriving DecidableEq, Repr

/-- AsyncReceiver::bind_with_options (tokio/receiver.rs lines 147-195).
The Drop impl of the partially built receiver runs rist_destroy when
add_peer or start fails after the struct exists; the notification-setup
failures return before the struct exists, so no destroy is recorded on
those paths (this is exactly what the source does). -/
def AsyncReceiver.bind_with_options (url : String) (options : ReceiverOptions)
    (env : BindEnv) : Except Error Unit × List NativeCall :=
  if env.createRet ≠ 0 ∨ env.createOk = false then
    (.error .ContextCreation, [.receiverCreate])
  else
    match env.pipeErr with
    | some e => (.error (.EventFd e), [.receiverCreate, .pipeCreate])
    | none =>
      if env.notifyFdSetRet ≠ 0 then
        (.error (.EventFd "failed to set notify fd"),
         [.receiverCreate, .pipeCreate, .notifyFdSet])
      else
        match env.asyncFdErr with
        | some e =>
          (.error (.EventFd e),
           [.receiverCreate, .pipeCreate, .notifyFdSet, .asyncFdNew])
        | none =>
          let pre : List NativeCall :=
            [.receiverCreate, .pipeCreate, .notifyFdSet, .asyncFdNew,
             .statsCallbackSet]
          match AsyncReceiver.add_peer_with_options url options env.peer with
          | (.error e, t) => (.error e, pre ++ t ++ [.destroyCtx])
          | (.ok _, t) =>
            if env.startRet ≠ 0 then
              (.error .Start, pre ++ t ++ [.start, .destroyCtx])
            else (.ok (), pre ++ t ++ [.start])

/-- Native outcomes consumed by the AsyncSender connect task. -/
structure ConnectEnv where
  createRet : Int
  createOk : Bool
  peer : AddPeerEnv
  startRet : Int
  deriving DecidableEq, Repr

/-- The blocking closure dispatched by Connect::poll (tokio/sender.rs
lines 92-155): create the context, register stats, add the peer, start.
On the null-byte path the CString error propagates without destroying
the created context (this is what the source does). -/
def Connect.task (url : String) (_options : SenderOptions) (env : ConnectEnv) :
    Except Error Unit × List NativeCall :=
  if env.createRet ≠ 0 ∨ env.createOk = false then
    (.error .ContextCreation, [.senderCreate])
  else
    let pre : List NativeCall := [.senderCreate, .statsCallbackSet]
    if containsNul url then (.error .NulError, pre)
    else if env.peer.parseRet ≠ 0 ∨ env.peer.parseOk = false then
      (.error (.UrlParse url), pre ++ [.parseAddress url, .destroyCtx])
    else if env.peer.peerCreateRet ≠ 0 then
      (.error (.PeerCreation url),
       pre ++ [.parseAddress url, .peerCreate, .peerConfigFree, .destroyCtx])
    else if env.startRet ≠ 0 then
      (.error .Start,
       pre ++ [.parseAddress url, .peerCreate, .peerConfigFree, .start,
               .destroyCtx])
    else
      (.ok (),
       pre ++ [.parseAddress url, .peerCreate, .peerConfigFree, .start])

/-! Theorems. -/

/-- A successful Receiver::start yields a session whose started flag is
set. -/
theorem receiver_start_ok_started {r r' : Receiver} {ret : Int}
    (h : (Receiver.start r ret).1 = .ok r') : r'.started = true := by
  unfold Receiver.start at h
  split at h
  · simp at h
  · split at h
    · simp at h
    · simp only at h
      cases h
      rfl

/-- A successful Sender::start yields a session whose started flag is
set. -/
theorem sender_start_ok_started {s s' : Sender} {ret : Int}
    (h : (Sender.start s ret).1 = .ok s') : s'.started = true := by
  unfold Sender.start at h
  split at h
  · simp at h
  · split at h
    · simp at h
    · simp only at h
      cases h
      rfl

/-- C1: a data operation (Receiver::read, Sender::send,
Sender::send_with_flow_id) before a successful start returns the
not-started error; start after a prior successful start returns the
already-started error; and a data operation after a successful start
never returns not-started. -/
theorem C1_session_state_errors
    (r : Receiver) (s : Sender) (t : Duration) (renv : ReadEnv)
    (data : List UInt8) (fid : Nat) (w : RistDataBlock → Int)
    (ret ret2 : Int)
    (hr : r.started = false) (hs : s.started = false) :
    (Receiver.read r t renv).1 = .error .NotStarted
    ∧ (Sender.send s data w).1 = .error .NotStarted
    ∧ (Sender.send_with_flow_id s data fid w).1 = .error .NotStarted
    ∧ (∀ r', (Receiver.start r ret).1 = .ok r' →
        (Receiver.start r' ret2).1 = .error .AlreadyStarted
        ∧ ∀ (t2 : Duration) (renv2 : ReadEnv),
            (Receiver.read r' t2 renv2).1 ≠ .error .NotStarted)
    ∧ (∀ s', (Sender.start s ret).1 = .ok s' →
        (Sender.start s' ret2).1 = .error .AlreadyStarted
        ∧ (∀ (d2 : List UInt8) (w2 : RistDataBlock → Int),
            (Sender.send s' d2 w2).1 ≠ .error .NotStarted)
        ∧ (∀ (d2 : List UInt8) (f2 : Nat) (w2 : RistDataBlock → Int),
            (Sender.send_with_flow_id s' d2 f2 w2).1 ≠ .error .NotStarted)) := by
  refine ⟨by simp [Receiver.read, hr], by simp [Sender.send, hs],
    by simp [Sender.send_with_flow_id, hs], ?_, ?_⟩
  · intro r' h
    have hr' : r'.started = true := receiver_start_ok_started h
    refine ⟨by simp [Receiver.start, hr'], ?_⟩
    intro t2 renv2
    unfold Receiver.read
    rw [hr']
    simp only [Bool.not_true, Bool.false_eq_true, if_false]
    split
    · simp
    · split
      · simp
      · split <;> simp
  · intro s' h
    have hs' : s'.started = true := sender_start_ok_started h
    refine ⟨by simp [Sender.start, hs'], ?_, ?_⟩
    · intro d2 w2
      unfold Sender.send
      rw [hs']
      simp only [Bool.not_true, Bool.false_eq_true, if_false]
      split <;> simp
    · intro d2 f2 w2
      unfold Sender.send_with_flow_id
      rw [hs']
      simp only [Bool.not_true, Bool.false_eq_true, if_false]
      split <;> simp

/-- Witness for C1 at a concrete fresh receiver and sender. -/
theorem C1_session_state_errors_witness :
    (Receiver.read { started := false } { secs := 0, nanos := 0 }
        { ret := 0, block := none }).1 = .error .NotStarted
    ∧ (Sender.send { started := false } [] (fun _ => 0)).1 = .error .NotStarted
    ∧ (Sender.send_with_flow_id { started := false } [] 7 (fun _ => 0)).1
        = .error .NotStarted
    ∧ (∀ r', (Receiver.start { started := false } 0).1 = .ok r' →
        (Receiver.start r' 0).1 = .error .AlreadyStarted
        ∧ ∀ (t2 : Duration) (renv2 : ReadEnv),
            (Receiver.read r' t2 renv2).1 ≠ .error .NotStarted)
    ∧ (∀ s', (Sender.start { started := false } 0).1 = .ok s' →
        (Sender.start s' 0).1 = .error .AlreadyStarted
        ∧ (∀ (d2 : List UInt8) (w2 : RistDataBlock → Int),
            (Sender.send s' d2 w2).1 ≠ .error .NotStarted)
        ∧ (∀ (d2 : List UInt8) (f2 : Nat) (w2 : RistDataBlock → Int),
            (Sender.send_with_flow_id s' d2 f2 w2).1 ≠ .error .NotStarted)) :=
  C1_session_state_errors { started := false } { started := false }
    { secs := 0, nanos := 0 } { ret := 0, block := none } [] 7 (fun _ => 0)
    0 0 rfl rfl

/-- C2: an address with an embedded null byte makes add_peer fail with
the invalid-string kind, with no native call made (in particular the
native address parser is never reached). -/
theorem C2_nul_byte_rejected (r : Receiver) (s : Sender) (url : String)
    (env env2 : AddPeerEnv) (h : containsNul url = true) :
    Receiver.add_peer r url env = (.error .NulError, [])
    ∧ Sender.add_peer s url env2 = (.error .NulError, []) := by
  constructor
  · simp [Receiver.add_peer, h]
  · simp [Sender.add_peer, h]

/-- Witness for C2 at the concrete address "r\x00". -/
theorem C2_nul_byte_rejected_witness :
    containsNul (String.mk ['r', Char.ofNat 0]) = true
    ∧ Receiver.add_peer { started := false } (String.mk ['r', Char.ofNat 0])
        { parseRet := 0, parseOk := true, peerCreateRet := 0 }
        = (.error .NulError, [])
    ∧ Sender.add_peer { started := false } (String.mk ['r', Char.ofNat 0])
        { parseRet := 0, parseOk := true, peerCreateRet := 0 }
        = (.error .NulError, []) :=
  ⟨by decide,
   (C2_nul_byte_rejected { started := false } { started := false }
      (String.mk ['r', Char.ofNat 0])
      { parseRet := 0, parseOk := true, peerCreateRet := 0 }
      { parseRet := 0, parseOk := true, peerCreateRet := 0 } (by decide)).1,
   (C2_nul_byte_rejected { started := false } { started := false }
      (String.mk ['r', Char.ofNat 0])
      { parseRet := 0, parseOk := true, peerCreateRet := 0 }
      { parseRet := 0, parseOk := true, peerCreateRet := 0 } (by decide)).2⟩

/-- C9: when the deadline of recv_timeout elapses before the underlying
receive completes, the result is the non-error empty result Ok(None). -/
theorem C9_deadline_elapse_yields_no_data (t : Duration) (env : RecvEnv) :
    AsyncReceiver.recv_timeout t true env = (.ok none, []) := rfl

/-- C10: for a started sender, send(data) and send_with_flow_id(data, 0)
are extensionally equal, and the descriptor handed to the native write
has flow id zero and all other metadata fields zero/null. -/
theorem C10_send_eq_flow_id_zero (s : Sender) (data : List UInt8)
    (write : RistDataBlock → Int) (h : s.started = true) :
    Sender.send s data write = Sender.send_with_flow_id s data 0 write
    ∧ (Sender.send s data write).2
        = [NativeCall.senderWrite
            { payload := data, payload_len := data.length, ts_ntp := 0,
              flow_id := 0, flags := 0, seq := 0, virt_src_port := 0,
              virt_dst_port := 0, peerIsNull := true, refIsNull := true }] := by
  constructor
  · rfl
  · unfold Sender.send
    rw [h]
    simp only [Bool.not_true, Bool.false_eq_true, if_false]
    split <;> rfl

/-- Witness for C10 at a concrete started sender and payload. -/
theorem C10_send_eq_flow_id_zero_witness :
    Sender.send { started := true } [71, 71] (fun _ => 2)
      = Sender.send_with_flow_id { started := true } [71, 71] 0 (fun _ => 2)
    ∧ (Sender.send { started := true } [71, 71] (fun _ => 2)).2
        = [NativeCall.senderWrite
            { payload := [71, 71], payload_len := 2, ts_ntp := 0,
              flow_id := 0, flags := 0, seq := 0, virt_src_port := 0,
              virt_dst_port := 0, peerIsNull := true, refIsNull := true }] :=
  C10_send_eq_flow_id_zero { started := true } [71, 71] (fun _ => 2) rfl

/-- A try_recv result is never the timeout-overflow error and its only
native call is a poll with timeout 0. -/
theorem AsyncReceiver.try_recv_no_overflow (env : ReadEnv) :
    (AsyncReceiver.try_recv env).1 ≠ .error .TimeoutOverflow
    ∧ (AsyncReceiver.try_recv env).2 = [.dataRead 0] := by
  unfold AsyncReceiver.try_recv
  split
  · simp
  · split <;> simp

/-- C3 counterexample: a 2200000-second timeout exceeds the i32
millisecond range, yet recv_timeout neither fails with timeout-overflow
nor avoids the native poll: it proceeds (here yielding Ok(None)) and
issues the native read with timeout 0. -/
theorem C3_counterexample :
    2147483647 < Duration.as_millis { secs := 2200000, nanos := 0 }
    ∧ AsyncReceiver.recv_timeout { secs := 2200000, nanos := 0 } false
        { readableErr := none, consumeErr := none,
          readEnv := { ret := 0, block := none } }
        = (.ok none, [.dataRead 0]) := by decide

/-- C3 (amended): Receiver::read fails with timeout-overflow, before any
native call, whenever the millisecond value does not fit in i32; the
async recv_timeout performs no millisecond conversion at all — it never
returns timeout-overflow and every native poll it issues uses timeout 0,
so no truncated timeout is ever passed to the native layer. -/
theorem C3_timeout_overflow_amended (r : Receiver) (t : Duration)
    (env : ReadEnv) (h : r.started = true) (ht : 2147483647 < t.as_millis) :
    Receiver.read r t env = (.error .TimeoutOverflow, [])
    ∧ ∀ (t2 : Duration) (elapsed : Bool) (renv : RecvEnv),
        (AsyncReceiver.recv_timeout t2 elapsed renv).1 ≠ .error .TimeoutOverflow
        ∧ ∀ ms, NativeCall.dataRead ms ∈ (AsyncReceiver.recv_timeout t2 elapsed renv).2
            → ms = 0 := by
  constructor
  · have hle : ¬t.as_millis ≤ 2147483647 := not_le.mpr ht
    simp [Receiver.read, h, i32_try_from, hle]
  · intro t2 elapsed renv
    cases elapsed with
    | true =>
      constructor
      · simp [AsyncReceiver.recv_timeout]
      · intro ms hm
        simp [AsyncReceiver.recv_timeout] at hm
    | false =>
      have hrw : AsyncReceiver.recv_timeout t2 false renv = AsyncReceiver.recv renv := rfl
      rw [hrw]
      rcases renv with ⟨re, ce, renv0⟩
      cases re with
      | some e =>
        constructor
        · simp [AsyncReceiver.recv]
        · intro ms hm
          simp [AsyncReceiver.recv] at hm
      | none =>
        have htr := AsyncReceiver.try_recv_no_overflow renv0
        cases ce with
        | none =>
          have hrc : AsyncReceiver.recv ⟨none, none, renv0⟩
              = AsyncReceiver.try_recv renv0 := rfl
          rw [hrc]
          refine ⟨htr.1, ?_⟩
          intro ms hm
          rw [htr.2] at hm
          simp at hm
          exact hm
        | some k =>
          cases k with
          | WouldBlock =>
            have hrc : AsyncReceiver.recv ⟨none, some .WouldBlock, renv0⟩
                = AsyncReceiver.try_recv renv0 := rfl
            rw [hrc]
            refine ⟨htr.1, ?_⟩
            intro ms hm
            rw [htr.2] at hm
            simp at hm
            exact hm
          | Other e =>
            constructor
            · simp [AsyncReceiver.recv]
            · intro ms hm
              simp [AsyncReceiver.recv] at hm

/-- Witness for the amended C3 at a started receiver and a timeout just
past the i32 millisecond range. -/
theorem C3_timeout_overflow_amended_witness :
    Receiver.read { started := true } { secs := 2147484, nanos := 0 }
        { ret := 1, block := some { payload := [1], ts_ntp := 0, flow_id := 0 } }
      = (.error .TimeoutOverflow, [])
    ∧ ∀ (t2 : Duration) (elapsed : Bool) (renv : RecvEnv),
        (AsyncReceiver.recv_timeout t2 elapsed renv).1 ≠ .error .TimeoutOverflow
        ∧ ∀ ms, NativeCall.dataRead ms ∈ (AsyncReceiver.recv_timeout t2 elapsed renv).2
            → ms = 0 :=
  C3_timeout_overflow_amended { started := true } { secs := 2147484, nanos := 0 }
    { ret := 1, block := some { payload := [1], ts_ntp := 0, flow_id := 0 } }
    rfl (by decide)

/-- C4: for a started receiver (with a representable timeout), the native
poll result is mapped exactly as the spec says, identically in
Receiver::read and AsyncReceiver::try_recv: negative return is the read
error, zero return or null block is the non-error empty result, positive
return with a non-null block is the wrapped block. -/
theorem C4_read_result_mapping (r : Receiver) (t : Duration) (env : ReadEnv)
    (h : r.started = true) (ht : t.as_millis ≤ 2147483647) :
    (env.ret < 0 →
      (Receiver.read r t env).1 = .error .Read
      ∧ (AsyncReceiver.try_recv env).1 = .error .Read)
    ∧ (0 ≤ env.ret → env.ret = 0 ∨ env.block = none →
      (Receiver.read r t env).1 = .ok none
      ∧ (AsyncReceiver.try_recv env).1 = .ok none)
    ∧ (∀ b : DataBlock, 0 < env.ret → env.block = some b →
      (Receiver.read r t env).1 = .ok (some b)
      ∧ (AsyncReceiver.try_recv env).1 = .ok (some b)) := by
  refine ⟨?_, ?_, ?_⟩
  · intro hlt
    constructor
    · simp [Receiver.read, h, i32_try_from, ht, hlt]
    · simp [AsyncReceiver.try_recv, hlt]
  · intro hge hz
    have hnlt : ¬env.ret < 0 := not_lt.mpr hge
    constructor
    · simp [Receiver.read, h, i32_try_from, ht, hnlt, hz]
    · simp [AsyncReceiver.try_recv, hnlt, hz]
  · intro b hpos hsome
    have hnlt : ¬env.ret < 0 := not_lt.mpr (le_of_lt hpos)
    have hne : env.ret ≠ 0 := hpos.ne'
    constructor
    · simp [Receiver.read, h, i32_try_from, ht, hnlt, hne, hsome]
    · simp [AsyncReceiver.try_recv, hnlt, hne, hsome]

/-- Witness for C4 at a started receiver with a positive native return
and a concrete block. -/
theorem C4_read_result_mapping_witness :
    (Receiver.read { started := true } { secs := 0, nanos := 0 }
        { ret := 1, block := some { payload := [71], ts_ntp := 5, flow_id := 9 } }).1
      = .ok (some { payload := [71], ts_ntp := 5, flow_id := 9 })
    ∧ (AsyncReceiver.try_recv
        { ret := 1, block := some { payload := [71], ts_ntp := 5, flow_id := 9 } }).1
      = .ok (some { payload := [71], ts_ntp := 5, flow_id := 9 }) :=
  (C4_read_result_mapping { started := true } { secs := 0, nanos := 0 }
    { ret := 1, block := some { payload := [71], ts_ntp := 5, flow_id := 9 } }
    rfl (by decide)).2.2
    { payload := [71], ts_ntp := 5, flow_id := 9 } (by decide) rfl

/-- C5 evaluation at the failing input: when the receiver context is
created successfully and the native notify-fd registration then fails,
bind_with_options returns the typed error but never calls rist_destroy
on the context it created (the context leaks), while on the
start-failure path, reached after the receiver struct exists, the
destroy call is made. -/
theorem C5_bind_notify_failure_leaks_context :
    AsyncReceiver.bind_with_options "rist://@:5000"
      { recovery_mode := none, recovery_maxbitrate := none,
        recovery_length_min := none, recovery_length_max := none,
        recovery_reorder_buffer := none, recovery_rtt_min := none,
        recovery_rtt_max := none, fifo_size := none }
      { createRet := 0, createOk := true, pipeErr := none,
        notifyFdSetRet := -1, asyncFdErr := none,
        peer := { parseRet := 0, parseOk := true, peerCreateRet := 0 },
        startRet := 0 }
      = (.error (.EventFd "failed to set notify fd"),
         [.receiverCreate, .pipeCreate, .notifyFdSet])
    ∧ NativeCall.destroyCtx ∉
        (AsyncReceiver.bind_with_options "rist://@:5000"
          { recovery_mode := none, recovery_maxbitrate := none,
            recovery_length_min := none, recovery_length_max := none,
            recovery_reorder_buffer := none, recovery_rtt_min := none,
            recovery_rtt_max := none, fifo_size := none }
          { createRet := 0, createOk := true, pipeErr := none,
            notifyFdSetRet := -1, asyncFdErr := none,
            peer := { parseRet := 0, parseOk := true, peerCreateRet := 0 },
            startRet := 0 }).2
    ∧ NativeCall.destroyCtx ∈
        (AsyncReceiver.bind_with_options "rist://@:5000"
          { recovery_mode := none, recovery_maxbitrate := none,
            recovery_length_min := none, recovery_length_max := none,
            recovery_reorder_buffer := none, recovery_rtt_min := none,
            recovery_rtt_max := none, fifo_size := none }
          { createRet := 0, createOk := true, pipeErr := none,
            notifyFdSetRet := 0, asyncFdErr := none,
            peer := { parseRet := 0, parseOk := true, peerCreateRet := 0 },
            startRet := -1 }).2 := by decide

/-- C6 counterexample: an invocation of the receiver stats callback with
a null context argument but a non-null stats container returns without
releasing the container (no rist_stats_free in the trace). -/
theorem C6_counterexample :
    NativeCall.statsFree ∉
      (receiverStatsCallback none
        (some { stats_type := RIST_STATS_RECEIVER_FLOW,
                receiver_flow :=
                  { peer_count := 1, flow_id := 2, bandwidth := 3,
                    retry_bandwidth := 4, sent := 5, received := 6,
                    missing := 7, reordered := 8, recovered := 9,
                    lost := 10, quality := 11, rtt := 12 },
                sender_peer :=
                  { peer_id := 1, bandwidth := 2, retry_bandwidth := 3,
                    sent := 4, received := 5, retransmitted := 6,
                    quality := 7, rtt := 8 } })).2.2 := by decide

/-- C6 (amended): for every invocation with a non-null callback argument
and a non-null stats container, each callback inspects the discriminant,
replaces the cell only when the shape matches (receiver-flow for the
receiver callback, sender-peer for the sender callback), leaves the cell
unchanged otherwise, returns 0, and releases the container in every
case. -/
theorem C6_stats_callback_amended (cellR : Option ReceiverStats)
    (cellS : Option SenderStats) (stats : RistStats) :
    (receiverStatsCallback (some cellR) (some stats)).2.2 = [.statsFree]
    ∧ (receiverStatsCallback (some cellR) (some stats)).1 = 0
    ∧ (stats.stats_type = RIST_STATS_RECEIVER_FLOW →
        (receiverStatsCallback (some cellR) (some stats)).2.1
          = some (some (ReceiverStats.fromRaw stats.receiver_flow)))
    ∧ (stats.stats_type ≠ RIST_STATS_RECEIVER_FLOW →
        (receiverStatsCallback (some cellR) (some stats)).2.1 = some cellR)
    ∧ (senderStatsCallback (some cellS) (some stats)).2.2 = [.statsFree]
    ∧ (senderStatsCallback (some cellS) (some stats)).1 = 0
    ∧ (stats.stats_type = RIST_STATS_SENDER_PEER →
        (senderStatsCallback (some cellS) (some stats)).2.1
          = some (some (SenderStats.fromRaw stats.sender_peer)))
    ∧ (stats.stats_type ≠ RIST_STATS_SENDER_PEER →
        (senderStatsCallback (some cellS) (some stats)).2.1 = some cellS) := by
  refine ⟨rfl, rfl, ?_, ?_, rfl, rfl, ?_, ?_⟩
  · intro hm
    simp [receiverStatsCallback, hm]
  · intro hm
    simp [receiverStatsCallback, hm]
  · intro hm
    simp [senderStatsCallback, hm]
  · intro hm
    simp [senderStatsCallback, hm]

/-- Witness for the amended C6: a receiver-flow shaped container updates
the receiver cell and is freed; the same container leaves a sender cell
unchanged and is still freed. -/
theorem C6_stats_callback_amended_witness :
    (receiverStatsCallback (some none)
        (some { stats_type := 1,
                receiver_flow :=
                  { peer_count := 1, flow_id := 2, bandwidth := 3,
                    retry_bandwidth := 4, sent := 5, received := 6,
                    missing := 7, reordered := 8, recovered := 9,
                    lost := 10, quality := 11, rtt := 12 },
                sender_peer :=
                  { peer_id := 1, bandwidth := 2, retry_bandwidth := 3,
                    sent := 4, received := 5, retransmitted := 6,
                    quality := 7, rtt := 8 } })).2.1
      = some (some (ReceiverStats.fromRaw
          { peer_count := 1, flow_id := 2, bandwidth := 3,
            retry_bandwidth := 4, sent := 5, received := 6,
            missing := 7, reordered := 8, recovered := 9,
            lost := 10, quality := 11, rtt := 12 })) :=
  (C6_stats_callback_amended none none
    { stats_type := 1,
      receiver_flow :=
        { peer_count := 1, flow_id := 2, bandwidth := 3,
          retry_bandwidth := 4, sent := 5, received := 6,
          missing := 7, reordered := 8, recovered := 9,
          lost := 10, quality := 11, rtt := 12 },
      sender_peer :=
        { peer_id := 1, bandwidth := 2, retry_bandwidth := 3,
          sent := 4, received := 5, retransmitted := 6,
          quality := 7, rtt := 8 } }).2.2.1 rfl

/-- Draining a leftover buffer through successive poll_read calls
delivers exactly the buffer's bytes, in order: the concatenation of all
delivered bytes with the final leftover equals the starting buffer. -/
theorem AsyncReceiver.drainReads_join (buf : List UInt8) (reqs : List Nat) :
    (AsyncReceiver.drainReads buf reqs).1 ++ (AsyncReceiver.drainReads buf reqs).2
      = buf := by
  induction reqs generalizing buf with
  | nil => simp [AsyncReceiver.drainReads]
  | cons r rs ih =>
    cases buf with
    | nil => simp [AsyncReceiver.drainReads, AsyncReceiver.poll_read, ih]
    | cons x xs =>
      have hstep : AsyncReceiver.poll_read (x :: xs) r { ret := 0, block := none }
          = { outcome := .readyOk,
              delivered := (x :: xs).take (min r (x :: xs).length),
              newBuf := (x :: xs).drop (min r (x :: xs).length),
              trace := [] } := by
        simp [AsyncReceiver.poll_read]
      simp only [AsyncReceiver.drainReads, hstep]
      rw [List.append_assoc, ih, List.take_append_drop]

/-- C7: when the leftover buffer is non-empty, poll_read satisfies the
request from it with no native call, consuming exactly the copied bytes;
when a native poll (from an empty buffer) yields a block, the fitting
part is copied out and the remainder retained, and the concatenation of
successive reads' bytes reassembles the block's bytes in order. -/
theorem C7_stream_adapter_split_read (readBuf : List UInt8) (remaining : Nat)
    (env : ReadEnv) (b : DataBlock) (reqs : List Nat)
    (hb : readBuf ≠ []) (hret : 0 < env.ret) (hblk : env.block = some b) :
    ((AsyncReceiver.poll_read readBuf remaining env).trace = []
     ∧ (AsyncReceiver.poll_read readBuf remaining env).outcome = .readyOk
     ∧ (AsyncReceiver.poll_read readBuf remaining env).delivered
        = readBuf.take (min remaining readBuf.length)
     ∧ (AsyncReceiver.poll_read readBuf remaining env).newBuf
        = readBuf.drop (AsyncReceiver.poll_read readBuf remaining env).delivered.length)
    ∧ ((AsyncReceiver.poll_read [] remaining env).delivered
        = b.payload.take (min remaining b.payload.length)
      ∧ (AsyncReceiver.poll_read [] remaining env).newBuf
        = b.payload.drop (min remaining b.payload.length)
      ∧ (AsyncReceiver.poll_read [] remaining env).delivered
          ++ (AsyncReceiver.drainReads
                (AsyncReceiver.poll_read [] remaining env).newBuf reqs).1
          ++ (AsyncReceiver.drainReads
                (AsyncReceiver.poll_read [] remaining env).newBuf reqs).2
        = b.payload) := by
  have hbe : readBuf.isEmpty = false := by
    cases readBuf
    · exact absurd rfl hb
    · rfl
  have hnlt : ¬env.ret < 0 := not_lt.mpr hret.le
  have hne : env.ret ≠ 0 := hret.ne'
  have hdeliv : (AsyncReceiver.poll_read [] remaining env).delivered
      = b.payload.take (min remaining b.payload.length) := by
    simp [AsyncReceiver.poll_read, hblk, hnlt, hne]
  have hnew : (AsyncReceiver.poll_read [] remaining env).newBuf
      = b.payload.drop (min remaining b.payload.length) := by
    simp only [AsyncReceiver.poll_read, hblk, hnlt, hne]
    by_cases hlt : min remaining b.payload.length < b.payload.length
    · simp [hlt]
    · have hmin : min remaining b.payload.length = b.payload.length :=
        le_antisymm (Nat.min_le_right _ _) (not_lt.mp hlt)
      simp [hlt, hmin, List.drop_length]
  refine ⟨⟨?_, ?_, ?_, ?_⟩, hdeliv, hnew, ?_⟩
  · simp [AsyncReceiver.poll_read, hbe]
  · simp [AsyncReceiver.poll_read, hbe]
  · simp [AsyncReceiver.poll_read, hbe]
  · have hd : (AsyncReceiver.poll_read readBuf remaining env).delivered
        = readBuf.take (min remaining readBuf.length) := by
      simp [AsyncReceiver.poll_read, hbe]
    have hn : (AsyncReceiver.poll_read readBuf remaining env).newBuf
        = readBuf.drop (min remaining readBuf.length) := by
      simp [AsyncReceiver.poll_read, hbe]
    rw [hn, hd, List.length_take, Nat.min_eq_left (Nat.min_le_right _ _)]
  · rw [hdeliv, hnew, List.append_assoc, AsyncReceiver.drainReads_join,
      List.take_append_drop]

/-- Witness for C7: a 3-byte block read through a 1-byte request and
then drained with further requests reassembles to the block. -/
theorem C7_stream_adapter_split_read_witness :
    (AsyncReceiver.poll_read [] 1
        { ret := 1, block := some { payload := [5, 6, 7], ts_ntp := 0, flow_id := 0 } }).delivered
      ++ (AsyncReceiver.drainReads
            (AsyncReceiver.poll_read [] 1
              { ret := 1, block := some { payload := [5, 6, 7], ts_ntp := 0, flow_id := 0 } }).newBuf
            [2, 2]).1
      ++ (AsyncReceiver.drainReads
            (AsyncReceiver.poll_read [] 1
              { ret := 1, block := some { payload := [5, 6, 7], ts_ntp := 0, flow_id := 0 } }).newBuf
            [2, 2]).2
      = [5, 6, 7] :=
  (C7_stream_adapter_split_read [1, 2] 1
    { ret := 1, block := some { payload := [5, 6, 7], ts_ntp := 0, flow_id := 0 } }
    { payload := [5, 6, 7], ts_ntp := 0, flow_id := 0 } [2, 2]
    (by decide) (by decide) rfl).2.2.2

/-- Field-by-field effect of ReceiverOptions::apply_to_peer_config: a
targeted config field takes the set option's converted value and keeps
its old value when the option is unset; fields with no corresponding
option are never written. -/
theorem receiverOptions_apply_fields (o : ReceiverOptions) (c : RistPeerConfig) :
    (o.apply_to_peer_config c).recovery_mode
      = (match o.recovery_mode with
         | some mode => mode.to_raw
         | none => c.recovery_mode)
    ∧ (o.apply_to_peer_config c).recovery_maxbitrate
      = (match o.recovery_maxbitrate with
         | some bitrate => bitrate
         | none => c.recovery_maxbitrate)
    ∧ (o.apply_to_peer_config c).recovery_length_min
      = (match o.recovery_length_min with
         | some duration => duration.as_millis % 4294967296
         | none => c.recovery_length_min)
    ∧ (o.apply_to_peer_config c).recovery_length_max
      = (match o.recovery_length_max with
         | some duration => duration.as_millis % 4294967296
         | none => c.recovery_length_max)
    ∧ (o.apply_to_peer_config c).recovery_reorder_buffer
      = (match o.recovery_reorder_buffer with
         | some buffer => buffer
         | none => c.recovery_reorder_buffer)
    ∧ (o.apply_to_peer_config c).recovery_rtt_min
      = (match o.recovery_rtt_min with
         | some duration => duration.as_millis % 4294967296
         | none => c.recovery_rtt_min)
    ∧ (o.apply_to_peer_config c).recovery_rtt_max
      = (match o.recovery_rtt_max with
         | some duration => duration.as_millis % 4294967296
         | none => c.recovery_rtt_max)
    ∧ (o.apply_to_peer_config c).address = c.address
    ∧ (o.apply_to_peer_config c).virt_dst_port = c.virt_dst_port
    ∧ (o.apply_to_peer_config c).weight = c.weight
    ∧ (o.apply_to_peer_config c).recovery_maxbitrate_return
      = c.recovery_maxbitrate_return := by
  rcases o with ⟨rm, mb, lmin, lmax, rb, rmin, rmax, fifo⟩
  rcases rm with _ | rm <;> rcases mb with _ | mb <;> rcases lmin with _ | lmin <;>
    rcases lmax with _ | lmax <;> rcases rb with _ | rb <;>
    rcases rmin with _ | rmin <;> rcases rmax with _ | rmax <;>
    simp [ReceiverOptions.apply_to_peer_config]

/-- Field-by-field effect of SenderOptions::apply_to_peer_config. -/
theorem senderOptions_apply_fields (o : SenderOptions) (c : RistPeerConfig) :
    (o.apply_to_peer_config c).recovery_mode
      = (match o.recovery_mode with
         | some mode => mode.to_raw
         | none => c.recovery_mode)
    ∧ (o.apply_to_peer_config c).recovery_maxbitrate
      = (match o.recovery_maxbitrate with
         | some bitrate => bitrate
         | none => c.recovery_maxbitrate)
    ∧ (o.apply_to_peer_config c).recovery_length_min
      = (match o.recovery_length_min with
         | some duration => duration.as_millis % 4294967296
         | none => c.recovery_length_min)
    ∧ (o.apply_to_peer_config c).recovery_length_max
      = (match o.recovery_length_max with
         | some duration => duration.as_millis % 4294967296
         | none => c.recovery_length_max)
    ∧ (o.apply_to_peer_config c).recovery_reorder_buffer
      = c.recovery_reorder_buffer
    ∧ (o.apply_to_peer_config c).recovery_rtt_min = c.recovery_rtt_min
    ∧ (o.apply_to_peer_config c).recovery_rtt_max = c.recovery_rtt_max
    ∧ (o.apply_to_peer_config c).address = c.address
    ∧ (o.apply_to_peer_config c).virt_dst_port = c.virt_dst_port
    ∧ (o.apply_to_peer_config c).weight = c.weight
    ∧ (o.apply_to_peer_config c).recovery_maxbitrate_return
      = c.recovery_maxbitrate_return := by
  rcases o with ⟨rm, mb, lmin, lmax⟩
  rcases rm with _ | rm <;> rcases mb with _ | mb <;> rcases lmin with _ | lmin <;>
    rcases lmax with _ | lmax <;>
    simp [SenderOptions.apply_to_peer_config]

/-- C8: applying a ReceiverOptions or SenderOptions object to a native
peer config writes exactly the fields whose option is explicitly set;
every config field whose option is unset, and every field with no
corresponding option, keeps its prior (native-default) value. -/
theorem C8_options_write_only_set_fields (ro : ReceiverOptions)
    (so : SenderOptions) (c c2 : RistPeerConfig) :
    ((ro.apply_to_peer_config c).recovery_mode
      = (match ro.recovery_mode with
         | some mode => mode.to_raw
         | none => c.recovery_mode)
    ∧ (ro.apply_to_peer_config c).recovery_maxbitrate
      = (match ro.recovery_maxbitrate with
         | some bitrate => bitrate
         | none => c.recovery_maxbitrate)
    ∧ (ro.apply_to_peer_config c).recovery_length_min
      = (match ro.recovery_length_min with
         | some duration => duration.as_millis % 4294967296
         | none => c.recovery_length_min)
    ∧ (ro.apply_to_peer_config c).recovery_length_max
      = (match ro.recovery_length_max with
         | some duration => duration.as_millis % 4294967296
         | none => c.recovery_length_max)
    ∧ (ro.apply_to_peer_config c).recovery_reorder_buffer
      = (match ro.recovery_reorder_buffer with
         | some buffer => buffer
         | none => c.recovery_reorder_buffer)
    ∧ (ro.apply_to_peer_config c).recovery_rtt_min
      = (match ro.recovery_rtt_min with
         | some duration => duration.as_millis % 4294967296
         | none => c.recovery_rtt_min)
    ∧ (ro.apply_to_peer_config c).recovery_rtt_max
      = (match ro.recovery_rtt_max with
         | some duration => duration.as_millis % 4294967296
         | none => c.recovery_rtt_max)
    ∧ (ro.apply_to_peer_config c).address = c.address
    ∧ (ro.apply_to_peer_config c).virt_dst_port = c.virt_dst_port
    ∧ (ro.apply_to_peer_config c).weight = c.weight
    ∧ (ro.apply_to_peer_config c).recovery_maxbitrate_return
      = c.recovery_maxbitrate_return)
    ∧ ((so.apply_to_peer_config c2).recovery_mode
      = (match so.recovery_mode with
         | some mode => mode.to_raw
         | none => c2.recovery_mode)
    ∧ (so.apply_to_peer_config c2).recovery_maxbitrate
      = (match so.recovery_maxbitrate with
         | some bitrate => bitrate
         | none => c2.recovery_maxbitrate)
    ∧ (so.apply_to_peer_config c2).recovery_length_min
      = (match so.recovery_length_min with
         | some duration => duration.as_millis % 4294967296
         | none => c2.recovery_length_min)
    ∧ (so.apply_to_peer_config c2).recovery_length_max
      = (match so.recovery_length_max with
         | some duration => duration.as_millis % 4294967296
         | none => c2.recovery_length_max)
    ∧ (so.apply_to_peer_config c2).recovery_reorder_buffer
      = c2.recovery_reorder_buffer
    ∧ (so.apply_to_peer_config c2).recovery_rtt_min = c2.recovery_rtt_min
    ∧ (so.apply_to_peer_config c2).recovery_rtt_max = c2.recovery_rtt_max
    ∧ (so.apply_to_peer_config c2).address = c2.address
    ∧ (so.apply_to_peer_config c2).virt_dst_port = c2.virt_dst_port
    ∧ (so.apply_to_peer_config c2).weight = c2.weight
    ∧ (so.apply_to_peer_config c2).recovery_maxbitrate_return
      = c2.recovery_maxbitrate_return) :=
  ⟨receiverOptions_apply_fields ro c, senderOptions_apply_fields so c2⟩

end Rist
